import Mathlib

/-!
Verification of the interview progression state machine and its
oracle/evaluation boundary.

The definitions below are a shallow embedding of the TypeScript source:

* `src/lib/ai/nextQuestion.ai.ts` — `nextQuestionAI`, `applyStateTransition`,
  `fallbackNextQuestion` (the oracle adapter and state machine core);
* the next-question API route — input validation and the completed-session
  short circuit (`POST`);
* `src/lib/interview-state.ts` — `syncStateFromServer`,
  `updateStateFromResponse` (client-side merge);
* the final-evaluation module — `sanitizeEvaluation`, `clamp`,
  `getFallbackEvaluation`, `finalEvaluationAI`;
* the legacy evaluation module — `isValidEvaluation`, `evaluateCandidateAI`.

Modelling conventions: the external generation service is an oracle
parameter (`OracleOutcome` / `EvalOracle`) holding the fields of the
JSON object recovered from the service's reply, or `failure` for any
transport / JSON-parse error (everything the `catch` block absorbs).
`Date.now()` is an explicit `now : Nat` parameter.  JavaScript numbers
are modelled as `Int`; values feeding JS `Number()` coercion are
modelled with the `JVal` type below.  Strings are Lean `String`s and
JS `trim()` is modelled by `jsTrim` (ASCII whitespace).
-/

/-- Model of JavaScript `String.prototype.trim`: drop whitespace from
both ends (restricted to the whitespace characters Lean's
`Char.isWhitespace` knows; the source only ever trims oracle text). -/
def jsTrim (s : String) : String :=
  ⟨((s.data.dropWhile Char.isWhitespace).reverse.dropWhile Char.isWhitespace).reverse⟩

/-- JS truthiness of an optional string (`Boolean(x)`): `undefined`/absent
and the empty string are falsy. -/
def jsTruthyStr : Option String → Bool
  | none => false
  | some t => t ≠ ""

/-- JS falsiness of an optional string (`!x`). -/
def jsFalsyStr : Option String → Bool
  | none => true
  | some t => t = ""

/-- Source `question_type` field of `InterviewState` (source type
`'main' | 'followup'`). -/
inductive QType
  | main
  | followup
deriving DecidableEq, Repr

/-- Source `interview_phase` field (source type
`'initializing' | 'in_progress' | 'completed' | 'evaluating'`; the
`evaluating` value exists in the type but is never produced by the
state machine core). -/
inductive Phase
  | initializing
  | in_progress
  | completed
  | evaluating
deriving DecidableEq, Repr

/-- Source `InterviewAnswer` from `src/types/interview.ts`. -/
structure InterviewAnswer where
  question : String
  answer : String
  timestamp : String
  questionId : Option String
  questionType : Option QType
  mainQuestionIndex : Option Nat
deriving DecidableEq, Repr

/-- Source `InterviewBlueprint` from `src/types/interview.ts` (immutable
profile-analysis artifact; it only influences prompt text, never the
state transition). -/
structure InterviewBlueprint where
  key_skills : List String
  skill_gaps : List String
  notable_projects : List String
  focus_areas : List String
  suggested_question_themes : List String
deriving DecidableEq, Repr

/-- Source `InterviewState` from `src/types/interview.ts`. -/
structure InterviewState where
  current_question_index : Nat
  question_type : QType
  followup_count : Nat
  max_questions : Nat
  max_followups : Nat
  interview_phase : Phase
  current_question_id : Option String
  conversation_history : List InterviewAnswer
deriving DecidableEq, Repr

/-- Source `NextQuestionResponse` from `src/types/interview.ts`. -/
structure NextQuestionResponse where
  question : Option String
  question_id : String
  question_type : QType
  updated_state : InterviewState
  interview_complete : Bool
  reasoning : Option String
deriving DecidableEq, Repr

/-- Source `NextQuestionRequest` from `src/types/interview.ts`, as consumed by
`nextQuestionAI` (all required fields present). -/
structure NextQuestionRequest where
  jobDescription : String
  resume : String
  roleTitle : String
  interview_state : InterviewState
  last_answer : Option String
  blueprint : Option InterviewBlueprint
deriving DecidableEq, Repr

/-- Outcome of the one external generation call made by
`nextQuestionAI`: `failure` is any transport / JSON-parse error
absorbed by the `catch` block; `success qf rf` carries the `question`
field of the parsed object (`some q` when it is a string, `none` when
absent or not a string) and likewise its `reasoning` field. -/
inductive OracleOutcome
  | failure
  | success (questionField : Option String) (reasoningField : Option String)
deriving DecidableEq, Repr

/-- The follow-up eligibility check computed at the top of
`nextQuestionAI` (lines 21-24 of `nextQuestion.ai.ts`):
`Boolean(last_answer) && question_type === "main" && followup_count < max_followups`. -/
def shouldAskFollowUp (s : InterviewState) (last_answer : Option String) : Bool :=
  jsTruthyStr last_answer && (s.question_type == QType.main)
    && decide (s.followup_count < s.max_followups)

/-- Id minted on the follow-up branch:
`followup-${state.current_question_index}-${Date.now()}`. -/
def mintFollowupId (idx now : Nat) : String :=
  "followup-" ++ Nat.repr idx ++ "-" ++ Nat.repr now

/-- Id minted on the main-question branch (after the index increment):
`main-${updated.current_question_index}-${Date.now()}`. -/
def mintMainId (idx now : Nat) : String :=
  "main-" ++ Nat.repr idx ++ "-" ++ Nat.repr now

/-- Id minted on the oracle-failure fallback path:
`fallback-${Date.now()}`. -/
def mintFallbackId (now : Nat) : String :=
  "fallback-" ++ Nat.repr now

/-- Source `applyStateTransition` from `nextQuestion.ai.ts` (lines 79-124).
`question` is the already-normalised question (`null` or a non-blank
trimmed string on the call path from `nextQuestionAI`); `!question`
is modelled by `jsFalsyStr`.  The source's non-null assertion
`updated.current_question_id!` is modelled by `Option.getD ""`. -/
def applyStateTransition (state : InterviewState) (question : Option String)
    (isFollowUp : Bool) (reasoning : Option String) (now : Nat) :
    NextQuestionResponse :=
  if jsFalsyStr question then
    { question := none
      question_id := ""
      question_type := QType.main
      updated_state := { state with interview_phase := Phase.completed }
      interview_complete := true
      reasoning := reasoning }
  else
    let updated : InterviewState :=
      if isFollowUp then
        { state with
            followup_count := state.followup_count + 1
            question_type := QType.followup
            current_question_id :=
              some (mintFollowupId state.current_question_index now) }
      else
        { state with
            current_question_index := state.current_question_index + 1
            followup_count := 0
            question_type := QType.main
            current_question_id :=
              some (mintMainId (state.current_question_index + 1) now) }
    let completed : Bool :=
      decide (updated.max_questions ≤ updated.current_question_index)
        && (updated.question_type == QType.main)
    let final : InterviewState :=
      { updated with
          interview_phase :=
            if completed then Phase.completed else Phase.in_progress }
    { question := question
      question_id := final.current_question_id.getD ""
      question_type := final.question_type
      updated_state := final
      interview_complete := completed
      reasoning := reasoning }

/-- Source `fallbackNextQuestion` from `nextQuestion.ai.ts` (lines 194-213). -/
def fallbackNextQuestion (state : InterviewState) (roleTitle : String)
    (now : Nat) : NextQuestionResponse :=
  let completed : Bool := decide (state.max_questions ≤ state.current_question_index)
  { question :=
      if completed then none
      else some ("Tell me about your experience relevant to this "
        ++ roleTitle ++ " role.")
    question_id := mintFallbackId now
    question_type := QType.main
    updated_state :=
      { state with
          interview_phase :=
            if completed then Phase.completed else Phase.in_progress }
    interview_complete := completed
    reasoning := some "Fallback due to AI error" }

/-- Source `nextQuestionAI` from `nextQuestion.ai.ts` (lines 9-75): computes
the follow-up eligibility, makes one oracle call, normalises the
parsed `question` field (`typeof parsed.question === "string" &&
parsed.question.trim() ? parsed.question.trim() : null`), and either
applies the state transition or falls back on failure. -/
def nextQuestionAI (req : NextQuestionRequest) (oracle : OracleOutcome)
    (now : Nat) : NextQuestionResponse :=
  match oracle with
  | OracleOutcome.failure =>
      fallbackNextQuestion req.interview_state req.roleTitle now
  | OracleOutcome.success questionField reasoningField =>
      let question : Option String :=
        match questionField with
        | some q => if jsTrim q ≠ "" then some (jsTrim q) else none
        | none => none
      applyStateTransition req.interview_state question
        (shouldAskFollowUp req.interview_state req.last_answer)
        reasoningField now

/-- The JSON body of the next-question route as it arrives at runtime:
string fields default to `""` when missing (both `undefined` and `""`
are falsy in the route's validation check), and `interview_state` may
be absent. -/
structure RouteBody where
  jobDescription : String
  resume : String
  roleTitle : String
  interview_state : Option InterviewState
  last_answer : Option String
  blueprint : Option InterviewBlueprint
deriving DecidableEq, Repr

/-- Result of the next-question route: a 400 validation error or a JSON
`NextQuestionResponse`. -/
inductive RouteResult
  | badRequest
  | ok (response : NextQuestionResponse)
deriving DecidableEq, Repr

/-- The terminal echo returned by the route for an already-completed
session (the object literal at lines 21-27 of the route handler). -/
def completedEcho (s : InterviewState) : NextQuestionResponse :=
  { question := none
    question_id := ""
    question_type := QType.main
    updated_state := s
    interview_complete := true
    reasoning := none }

/-- Handler `POST` of the next-question API route: field validation, the
completed-session short circuit, then `nextQuestionAI`. -/
def nextQuestionRoute (body : RouteBody) (oracle : OracleOutcome)
    (now : Nat) : RouteResult :=
  if body.jobDescription = "" ∨ body.resume = "" ∨ body.roleTitle = ""
      ∨ body.interview_state = none then
    RouteResult.badRequest
  else
    match body.interview_state with
    | none => RouteResult.badRequest
    | some s =>
      if s.interview_phase = Phase.completed then
        RouteResult.ok (completedEcho s)
      else
        RouteResult.ok (nextQuestionAI
          { jobDescription := body.jobDescription
            resume := body.resume
            roleTitle := body.roleTitle
            interview_state := s
            last_answer := body.last_answer
            blueprint := body.blueprint } oracle now)

/-- Source `syncStateFromServer` from `src/lib/interview-state.ts` (lines 43-51). -/
def syncStateFromServer (localState server : InterviewState) : InterviewState :=
  { server with conversation_history := localState.conversation_history }

/-- Source `updateStateFromResponse` from `src/lib/interview-state.ts`
(lines 168-187). -/
def updateStateFromResponse (currentState serverState : InterviewState) :
    InterviewState :=
  if serverState.interview_phase = Phase.completed
      ∧ currentState.interview_phase ≠ Phase.completed then
    { serverState with interview_phase := Phase.completed }
  else
    { serverState with
        conversation_history := currentState.conversation_history }

/-- Atomic JSON value (arrays in the oracle's reply are modelled one
level deep, which is all the source ever inspects). -/
inductive JAtom
  | str (s : String)
  | num (n : Int)
  | jbool (b : Bool)
  | null
deriving DecidableEq, Repr

/-- A field of the object recovered from the evaluation oracle's reply:
an atom, an array of atoms, or `undefined` for a missing field. -/
inductive JVal
  | atom (a : JAtom)
  | arr (xs : List JAtom)
  | undefined
deriving DecidableEq, Repr

/-- Model of JS `Number()` coercion, `none` standing for `NaN`.
Numbers are `Int` (the source only documents integral ranges); numeric
strings are parsed after trimming, with the empty string coercing to 0
as in JS; a non-empty array coerces through its string form, which the
model conservatively maps to `NaN`. -/
def toNumber : JVal → Option Int
  | JVal.atom (JAtom.num n) => some n
  | JVal.atom (JAtom.str s) =>
      if jsTrim s = "" then some 0 else (jsTrim s).toInt?
  | JVal.atom (JAtom.jbool b) => some (if b then 1 else 0)
  | JVal.atom JAtom.null => some 0
  | JVal.undefined => none
  | JVal.arr [] => some 0
  | JVal.arr (_ :: _) => none

/-- Source `clamp` from the final-evaluation module (lines 95-99):
`Number(value)`, then `min` on `NaN`, else `Math.min(max, Math.max(min, num))`. -/
def clamp (value : JVal) (lo hi : Int) : Int :=
  match toNumber value with
  | none => lo
  | some n => min hi (max lo n)

/-- Model of `typeof v === "number"`. -/
def isNumberJ : JVal → Bool
  | JVal.atom (JAtom.num _) => true
  | _ => false

/-- Model of `Array.isArray(v)`. -/
def isArrayJ : JVal → Bool
  | JVal.arr _ => true
  | _ => false

/-- Model of `typeof v === "string"`. -/
def isStringJ : JVal → Bool
  | JVal.atom (JAtom.str _) => true
  | _ => false

/-- The object recovered from the evaluation oracle's reply, field by
field (a missing field is `JVal.undefined`). -/
structure ParsedEval where
  alignment_percentage : JVal
  technical_score : JVal
  problem_solving_score : JVal
  communication_score : JVal
  strengths : JVal
  weaknesses : JVal
  final_verdict : JVal
  summary : JVal
deriving DecidableEq, Repr

/-- Runtime shape of an `EvaluationResult` as the two evaluation
operations actually produce it: numeric fields are numbers, but the
strengths/weaknesses lists may hold arbitrary (non-string) elements,
and the legacy path passes `final_verdict` through unchecked, so those
stay `JVal`-typed. -/
structure EvaluationResult where
  alignment_percentage : Int
  technical_score : Int
  problem_solving_score : Int
  communication_score : Int
  strengths : List JAtom
  weaknesses : List JAtom
  final_verdict : JVal
  summary : String
deriving DecidableEq, Repr

/-- Outcome of the one external scoring call: `failure` for any
transport / JSON-parse error, `success p` for a parsed object. -/
inductive EvalOracle
  | failure
  | success (parsed : ParsedEval)
deriving DecidableEq, Repr

/-- Source `sanitizeEvaluation` from the final-evaluation module (lines 77-93):
clamps the four numeric fields, replaces non-arrays by `[]` (array
elements are passed through unchanged), restricts `final_verdict` to
the three-value enum via `["Fit","Maybe","Reject"].includes` with
default `"Maybe"`, and defaults a non-string summary. -/
def sanitizeEvaluation (parsed : ParsedEval) : EvaluationResult :=
  { alignment_percentage := clamp parsed.alignment_percentage 0 100
    technical_score := clamp parsed.technical_score 0 10
    problem_solving_score := clamp parsed.problem_solving_score 0 10
    communication_score := clamp parsed.communication_score 0 10
    strengths :=
      match parsed.strengths with
      | JVal.arr xs => xs
      | _ => []
    weaknesses :=
      match parsed.weaknesses with
      | JVal.arr xs => xs
      | _ => []
    final_verdict :=
      if parsed.final_verdict = JVal.atom (JAtom.str "Fit")
          ∨ parsed.final_verdict = JVal.atom (JAtom.str "Maybe")
          ∨ parsed.final_verdict = JVal.atom (JAtom.str "Reject") then
        parsed.final_verdict
      else JVal.atom (JAtom.str "Maybe")
    summary :=
      match parsed.summary with
      | JVal.atom (JAtom.str s) => s
      | _ => "Evaluation completed." }

/-- Source `getFallbackEvaluation` from the final-evaluation module
(lines 101-112), parameterised by `conversation_history.length`. -/
def getFallbackEvaluation (count : Nat) : EvaluationResult :=
  { alignment_percentage := 65
    technical_score := 7
    problem_solving_score := 6
    communication_score := 7
    strengths := [JAtom.str "Completed interview", JAtom.str "Engaged in discussion"]
    weaknesses := [JAtom.str "Automated evaluation incomplete"]
    final_verdict := JVal.atom (JAtom.str "Maybe")
    summary := "The candidate answered " ++ Nat.repr count
      ++ " questions. Manual review is recommended." }

/-- Source `finalEvaluationAI` from the final-evaluation module (lines 8-57):
one scoring call, sanitize on success, fixed fallback report on any
failure. -/
def finalEvaluationAI (conversation_history : List InterviewAnswer)
    (oracle : EvalOracle) : EvaluationResult :=
  match oracle with
  | EvalOracle.success parsed => sanitizeEvaluation parsed
  | EvalOracle.failure => getFallbackEvaluation conversation_history.length

/-- Source `isValidEvaluation` from the legacy evaluation module (lines 79-90):
type checks only — numeric fields must be numbers, strengths and
weaknesses arrays, summary a string; `final_verdict` is not checked
and no range is checked. -/
def isValidEvaluation (p : ParsedEval) : Bool :=
  isNumberJ p.alignment_percentage && isNumberJ p.technical_score
    && isNumberJ p.problem_solving_score && isNumberJ p.communication_score
    && isArrayJ p.strengths && isArrayJ p.weaknesses && isStringJ p.summary

/-- Number extracted from a field `isValidEvaluation` certified as a
number (the default branch is unreachable on the valid path). -/
def jsGetNum : JVal → Int
  | JVal.atom (JAtom.num n) => n
  | _ => 0

/-- Array elements of a field certified as an array. -/
def jsGetArr : JVal → List JAtom
  | JVal.arr xs => xs
  | _ => []

/-- String value of a field certified as a string. -/
def jsGetStr : JVal → String
  | JVal.atom (JAtom.str s) => s
  | _ => ""

/-- Source `getFallbackEvaluation` from the legacy evaluation module
(lines 92-106): a fully fixed report (its `answers` argument is
unused by the source). -/
def getFallbackEvaluationLegacy : EvaluationResult :=
  { alignment_percentage := 60
    technical_score := 7
    problem_solving_score := 6
    communication_score := 7
    strengths := [JAtom.str "Clear communication", JAtom.str "Basic technical understanding"]
    weaknesses := [JAtom.str "Needs deeper examples", JAtom.str "Limited edge-case discussion"]
    final_verdict := JVal.atom (JAtom.str "Maybe")
    summary := "The candidate demonstrates baseline competency but requires deeper technical validation." }

/-- Source `evaluateCandidateAI` from the legacy evaluation module
(lines 8-36): one scoring call; if the parsed object passes
`isValidEvaluation` it is returned as is (no clamping, no verdict
check), otherwise the thrown error is caught and the fixed fallback
report returned. -/
def evaluateCandidateAI (oracle : EvalOracle) : EvaluationResult :=
  match oracle with
  | EvalOracle.failure => getFallbackEvaluationLegacy
  | EvalOracle.success p =>
      if isValidEvaluation p then
        { alignment_percentage := jsGetNum p.alignment_percentage
          technical_score := jsGetNum p.technical_score
          problem_solving_score := jsGetNum p.problem_solving_score
          communication_score := jsGetNum p.communication_score
          strengths := jsGetArr p.strengths
          weaknesses := jsGetArr p.weaknesses
          final_verdict := p.final_verdict
          summary := jsGetStr p.summary }
      else getFallbackEvaluationLegacy

/-!
Infrastructure for reasoning about the minted id strings.  `Nat.repr`
renders a number through `Nat.toDigitsCore`; `natDigits` is a
fuel-free restatement of that digit list, proved equal to it, all
whose characters are decimal digits and which determines the number.
This lets us read the `Date.now()` timestamp back off the tail of any
minted id.
-/

/-- Decimal digit list of `n`, most significant first (fuel-free
counterpart of `Nat.toDigitsCore`). -/
def natDigits (n : Nat) : List Char :=
  if h : n < 10 then [Nat.digitChar n]
  else natDigits (n / 10) ++ [Nat.digitChar (n % 10)]
  decreasing_by exact Nat.div_lt_self (by omega) (by omega)

/-- Numeric value of a digit character. -/
def charVal (c : Char) : Nat := c.toNat - 48

/-- Value of a digit list, most significant first. -/
def parseDigits (l : List Char) : Nat :=
  l.foldl (fun a c => a * 10 + charVal c) 0

/-- The digit characters at the very end of a string. -/
def tailDigits (s : String) : List Char :=
  s.data.reverse.takeWhile Char.isDigit

/-- Position of a phase in the forward ordering
`initializing → in_progress → completed` of spec section 3.  The
source type also contains `evaluating`, which the spec's data model
omits and the state machine core never produces nor meaningfully
orders; it is ranked after `completed` (evaluation follows completion
in the application flow) and excluded from the ordering claims. -/
def phaseRank : Phase → Nat
  | Phase.initializing => 0
  | Phase.in_progress => 1
  | Phase.completed => 2
  | Phase.evaluating => 3

-- Sanity checks: the three concrete scenarios of spec section 8.

example :
    let s : InterviewState :=
      ⟨0, QType.main, 0, 3, 1, Phase.in_progress, none, []⟩
    let r := nextQuestionAI ⟨"jd", "cv", "dev", s, none, none⟩
      (OracleOutcome.success (some "Q1") none) 7
    r.updated_state.current_question_index = 1
      ∧ r.updated_state.question_type = QType.main
      ∧ r.updated_state.followup_count = 0
      ∧ r.updated_state.interview_phase = Phase.in_progress := by decide

example :
    let s : InterviewState :=
      ⟨0, QType.main, 0, 3, 1, Phase.in_progress, none, []⟩
    let r := nextQuestionAI ⟨"jd", "cv", "dev", s, some "my answer", none⟩
      (OracleOutcome.success (some "Follow-up?") none) 7
    r.updated_state.current_question_index = 0
      ∧ r.updated_state.question_type = QType.followup
      ∧ r.updated_state.followup_count = 1
      ∧ r.interview_complete = false := by decide

example :
    let s : InterviewState :=
      ⟨2, QType.main, 0, 3, 1, Phase.in_progress, none, []⟩
    let r := nextQuestionAI ⟨"jd", "cv", "dev", s, some "my answer", none⟩
      (OracleOutcome.success none none) 7
    r.updated_state.interview_phase = Phase.completed
      ∧ r.interview_complete = true := by decide

lemma digitChar_isDigit (n : Nat) (h : n < 10) :
    (Nat.digitChar n).isDigit = true := by
  interval_cases n <;> decide

lemma charVal_digitChar (n : Nat) (h : n < 10) :
    charVal (Nat.digitChar n) = n := by
  interval_cases n <;> decide

lemma natDigits_digits : ∀ n, ∀ c ∈ natDigits n, c.isDigit = true := by
  intro n
  induction n using natDigits.induct with
  | case1 n h =>
    rw [natDigits]
    simp only [dif_pos h]
    intro c hc
    simp only [List.mem_singleton] at hc
    subst hc
    exact digitChar_isDigit n h
  | case2 n h ih =>
    rw [natDigits]
    simp only [dif_neg h]
    intro c hc
    rcases List.mem_append.1 hc with h1 | h2
    · exact ih c h1
    · simp only [List.mem_singleton] at h2
      subst h2
      exact digitChar_isDigit _ (Nat.mod_lt _ (by omega))

lemma foldl_parse_step (l : List Char) (c : Char) (a : Nat) :
    List.foldl (fun a c => a * 10 + charVal c) a (l ++ [c])
      = (List.foldl (fun a c => a * 10 + charVal c) a l) * 10 + charVal c := by
  rw [List.foldl_append]
  rfl

lemma parseDigits_natDigits : ∀ n, parseDigits (natDigits n) = n := by
  intro n
  induction n using natDigits.induct with
  | case1 n h =>
    rw [natDigits]
    simp only [dif_pos h]
    unfold parseDigits
    simp only [List.foldl_cons, List.foldl_nil]
    rw [charVal_digitChar n h]
    omega
  | case2 n h ih =>
    rw [natDigits]
    simp only [dif_neg h]
    unfold parseDigits at *
    rw [foldl_parse_step, ih, charVal_digitChar _ (Nat.mod_lt _ (by omega))]
    omega

lemma natDigits_inj {m n : Nat} (h : natDigits m = natDigits n) : m = n := by
  have hm := parseDigits_natDigits m
  have hn := parseDigits_natDigits n
  rw [h] at hm
  omega

lemma toDigitsCore_acc (fuel : Nat) :
    ∀ n acc, Nat.toDigitsCore 10 fuel n acc
      = Nat.toDigitsCore 10 fuel n [] ++ acc := by
  induction fuel with
  | zero => intro n acc; rfl
  | succ fuel ih =>
    intro n acc
    show Nat.toDigitsCore 10 (fuel + 1) n acc = _
    unfold Nat.toDigitsCore
    by_cases hz : n / 10 = 0
    · simp [hz]
    · simp only [hz, if_false]
      rw [ih (n / 10) (Nat.digitChar (n % 10) :: acc),
        ih (n / 10) [Nat.digitChar (n % 10)]]
      simp

lemma toDigitsCore_eq_natDigits : ∀ n fuel, n < fuel →
    Nat.toDigitsCore 10 fuel n [] = natDigits n := by
  intro n
  induction n using Nat.strong_induction_on with
  | _ n ih =>
    intro fuel hfuel
    match fuel, hfuel with
    | fuel + 1, hfuel =>
      unfold Nat.toDigitsCore
      by_cases hz : n / 10 = 0
      · have hn : n < 10 := by omega
        rw [natDigits]
        simp only [dif_pos hn]
        simp [hz, Nat.mod_eq_of_lt hn]
      · have hn : ¬ n < 10 := by
          intro hlt
          exact hz (Nat.div_eq_of_lt hlt)
        rw [natDigits]
        simp only [dif_neg hn, hz, if_false]
        rw [toDigitsCore_acc]
        rw [ih (n / 10) (Nat.div_lt_self (by omega) (by omega)) fuel
          (by
            have : n / 10 < n := Nat.div_lt_self (by omega) (by omega)
            omega)]

lemma repr_data (n : Nat) : (Nat.repr n).data = natDigits n := by
  show (Nat.toDigits 10 n).asString.data = natDigits n
  have : (Nat.toDigits 10 n).asString.data = Nat.toDigits 10 n := rfl
  rw [this]
  show Nat.toDigitsCore 10 (n + 1) n [] = natDigits n
  exact toDigitsCore_eq_natDigits n (n + 1) (Nat.lt_succ_self n)

lemma takeWhile_all_stop {p : Char → Bool} :
    ∀ (xs : List Char) (y : Char) (ys : List Char),
      (∀ x ∈ xs, p x = true) → p y = false →
      List.takeWhile p (xs ++ y :: ys) = xs := by
  intro xs
  induction xs with
  | nil =>
    intro y ys _ hy
    simp [List.takeWhile_cons, hy]
  | cons x xs ih =>
    intro y ys hall hy
    have hx : p x = true := hall x (List.mem_cons_self x xs)
    simp only [List.cons_append, List.takeWhile_cons, hx, if_true]
    rw [ih y ys (fun z hz => hall z (List.mem_cons_of_mem x hz)) hy]

lemma tailDigits_spec (l : List Char) (n : Nat) :
    tailDigits ⟨l ++ '-' :: natDigits n⟩ = (natDigits n).reverse := by
  unfold tailDigits
  show (List.takeWhile Char.isDigit (l ++ '-' :: natDigits n).reverse) = _
  rw [List.reverse_append, List.reverse_cons]
  rw [List.append_assoc, List.singleton_append]
  rw [takeWhile_all_stop ((natDigits n).reverse) '-' l.reverse
    (fun c hc => natDigits_digits n c (List.mem_reverse.1 hc)) (by decide)]

lemma tail_timestamp_inj {s1 s2 : String} {l1 l2 : List Char} {n1 n2 : Nat}
    (h1 : s1.data = l1 ++ '-' :: natDigits n1)
    (h2 : s2.data = l2 ++ '-' :: natDigits n2)
    (hne : n1 ≠ n2) : s1 ≠ s2 := by
  intro he
  apply hne
  apply natDigits_inj
  have e1 : tailDigits s1 = (natDigits n1).reverse := by
    have : s1 = ⟨l1 ++ '-' :: natDigits n1⟩ := by
      cases s1; simp_all
    rw [this]; exact tailDigits_spec l1 n1
  have e2 : tailDigits s2 = (natDigits n2).reverse := by
    have : s2 = ⟨l2 ++ '-' :: natDigits n2⟩ := by
      cases s2; simp_all
    rw [this]; exact tailDigits_spec l2 n2
  rw [he, e2] at e1
  exact (List.reverse_injective e1.symm)

lemma mintMainId_data (idx now : Nat) :
    (mintMainId idx now).data
      = ("main-".data ++ natDigits idx) ++ '-' :: natDigits now := by
  unfold mintMainId
  rw [String.data_append, String.data_append, String.data_append]
  rw [repr_data, repr_data]
  simp

lemma mintFollowupId_data (idx now : Nat) :
    (mintFollowupId idx now).data
      = ("followup-".data ++ natDigits idx) ++ '-' :: natDigits now := by
  unfold mintFollowupId
  rw [String.data_append, String.data_append, String.data_append]
  rw [repr_data, repr_data]
  simp

lemma mintFallbackId_data (now : Nat) :
    (mintFallbackId now).data = "fallback".data ++ '-' :: natDigits now := by
  unfold mintFallbackId
  rw [String.data_append, repr_data]
  simp

/-- C1: for every input state with `followup_count ≤ max_followups`
and every oracle outcome (including failure), the state returned by
`nextQuestionAI` keeps `followup_count` in `[0, max_followups]`
(the lower bound is the `Nat` type), leaves `max_followups`
unchanged, increments `followup_count` only when the pre-call
eligibility check `shouldAskFollowUp` held, and resets it to 0 on
every main-question transition (whenever the index advanced). -/
theorem c1_followup_count_invariant (req : NextQuestionRequest)
    (oracle : OracleOutcome) (now : Nat)
    (hb : req.interview_state.followup_count ≤ req.interview_state.max_followups) :
    (nextQuestionAI req oracle now).updated_state.followup_count
        ≤ (nextQuestionAI req oracle now).updated_state.max_followups
    ∧ (nextQuestionAI req oracle now).updated_state.max_followups
        = req.interview_state.max_followups
    ∧ (req.interview_state.followup_count
          < (nextQuestionAI req oracle now).updated_state.followup_count
        → shouldAskFollowUp req.interview_state req.last_answer = true)
    ∧ (req.interview_state.current_question_index
          < (nextQuestionAI req oracle now).updated_state.current_question_index
        → (nextQuestionAI req oracle now).updated_state.followup_count = 0) := by
  obtain ⟨jd, cv, role, s, la, bp⟩ := req
  obtain ⟨idx, qt, fc, mq, mf, ph, qid, hist⟩ := s
  simp only at hb ⊢
  by_cases hf : shouldAskFollowUp ⟨idx, qt, fc, mq, mf, ph, qid, hist⟩ la = true
  · have hlt : fc < mf := by
      have := hf
      simp only [shouldAskFollowUp, Bool.and_eq_true, decide_eq_true_eq] at this
      exact this.2
    cases oracle with
    | failure =>
      simp [nextQuestionAI, fallbackNextQuestion]
      omega
    | success qf rf =>
      cases qf with
      | none =>
        simp [nextQuestionAI, applyStateTransition, jsFalsyStr]
        omega
      | some q =>
        by_cases hq : jsTrim q = ""
        · simp [nextQuestionAI, applyStateTransition, hq, jsFalsyStr]
          omega
        · simp only [nextQuestionAI]
          simp only [ne_eq, hq, not_false_iff, if_true]
          simp [applyStateTransition, jsFalsyStr, hq, hf]
          omega
  · simp only [Bool.not_eq_true] at hf
    cases oracle with
    | failure =>
      simp [nextQuestionAI, fallbackNextQuestion]
      omega
    | success qf rf =>
      cases qf with
      | none =>
        simp [nextQuestionAI, applyStateTransition, jsFalsyStr]
        omega
      | some q =>
        by_cases hq : jsTrim q = ""
        · simp [nextQuestionAI, applyStateTransition, hq, jsFalsyStr]
          omega
        · simp only [nextQuestionAI]
          simp only [ne_eq, hq, not_false_iff, if_true]
          simp [applyStateTransition, jsFalsyStr, hq, hf]

/-- Witness for `c1_followup_count_invariant` at a concrete follow-up
transition. -/
theorem c1_followup_count_invariant_witness :
    let s : InterviewState :=
      ⟨0, QType.main, 0, 3, 1, Phase.in_progress, none, []⟩
    let req : NextQuestionRequest := ⟨"jd", "cv", "dev", s, some "ans", none⟩
    (nextQuestionAI req (OracleOutcome.success (some "Go deeper?") none) 7).updated_state.followup_count
        ≤ (nextQuestionAI req (OracleOutcome.success (some "Go deeper?") none) 7).updated_state.max_followups :=
  (c1_followup_count_invariant
    ⟨"jd", "cv", "dev", ⟨0, QType.main, 0, 3, 1, Phase.in_progress, none, []⟩,
      some "ans", none⟩
    (OracleOutcome.success (some "Go deeper?") none) 7 (by decide)).1

/-- The advance operation never decreases the question index
(helper, all oracle outcomes). -/
lemma nextQuestionAI_index_mono (req : NextQuestionRequest)
    (oracle : OracleOutcome) (now : Nat) :
    req.interview_state.current_question_index
      ≤ (nextQuestionAI req oracle now).updated_state.current_question_index := by
  cases oracle with
  | failure => simp [nextQuestionAI, fallbackNextQuestion]
  | success qf rf =>
    cases qf with
    | none => simp [nextQuestionAI, applyStateTransition, jsFalsyStr]
    | some q =>
      by_cases hq : jsTrim q = ""
      · simp [nextQuestionAI, applyStateTransition, jsFalsyStr, hq]
      · by_cases hf : shouldAskFollowUp req.interview_state req.last_answer = true
        · simp [nextQuestionAI, applyStateTransition, jsFalsyStr, hq, hf]
        · simp only [Bool.not_eq_true] at hf
          simp [nextQuestionAI, applyStateTransition, jsFalsyStr, hq, hf]

/-- The advance operation always leaves the phase at `in_progress` or
`completed` (helper, all oracle outcomes). -/
lemma nextQuestionAI_phase_out (req : NextQuestionRequest)
    (oracle : OracleOutcome) (now : Nat) :
    (nextQuestionAI req oracle now).updated_state.interview_phase = Phase.in_progress
    ∨ (nextQuestionAI req oracle now).updated_state.interview_phase = Phase.completed := by
  cases oracle with
  | failure =>
    simp only [nextQuestionAI, fallbackNextQuestion]
    split <;> simp
  | success qf rf =>
    cases qf with
    | none => simp [nextQuestionAI, applyStateTransition, jsFalsyStr]
    | some q =>
      by_cases hq : jsTrim q = ""
      · simp [nextQuestionAI, applyStateTransition, jsFalsyStr, hq]
      · by_cases hf : shouldAskFollowUp req.interview_state req.last_answer = true
        · simp only [nextQuestionAI, ne_eq, hq, not_false_iff, if_true]
          simp only [applyStateTransition, jsFalsyStr, hq, decide_eq_true_eq, hf]
          split <;> first | (left; rfl) | (right; rfl) | simp_all
        · simp only [Bool.not_eq_true] at hf
          simp only [nextQuestionAI, ne_eq, hq, not_false_iff, if_true]
          simp only [applyStateTransition, jsFalsyStr, hq, decide_eq_true_eq, hf]
          split <;> first | (left; rfl) | (right; rfl) | (simp_all <;> omega)

/-- C2: for every input state accepted by the orchestrator (a completed
session is short-circuited before reaching the core, and the state lies
in the spec's phase ordering, which does not contain the source-only
`evaluating` value), the advance operation — every oracle outcome,
including the failure fallback — never decreases
`current_question_index` and never moves `interview_phase` backwards
in the ordering `initializing → in_progress → completed`. -/
theorem c2_advance_monotone (req : NextQuestionRequest)
    (oracle : OracleOutcome) (now : Nat)
    (hph : req.interview_state.interview_phase = Phase.initializing
      ∨ req.interview_state.interview_phase = Phase.in_progress) :
    req.interview_state.current_question_index
        ≤ (nextQuestionAI req oracle now).updated_state.current_question_index
    ∧ phaseRank req.interview_state.interview_phase
        ≤ phaseRank ((nextQuestionAI req oracle now).updated_state.interview_phase) := by
  refine ⟨nextQuestionAI_index_mono req oracle now, ?_⟩
  have hin : phaseRank req.interview_state.interview_phase ≤ 1 := by
    rcases hph with h | h <;> rw [h] <;> simp [phaseRank]
  have hout : 1 ≤ phaseRank ((nextQuestionAI req oracle now).updated_state.interview_phase) := by
    rcases nextQuestionAI_phase_out req oracle now with h | h <;> rw [h] <;>
      simp [phaseRank]
  omega

/-- Witness for `c2_advance_monotone` at a concrete in-progress state
with an oracle failure. -/
theorem c2_advance_monotone_witness :
    let s : InterviewState :=
      ⟨1, QType.main, 0, 3, 1, Phase.in_progress, none, []⟩
    let req : NextQuestionRequest := ⟨"jd", "cv", "dev", s, none, none⟩
    s.current_question_index
        ≤ (nextQuestionAI req OracleOutcome.failure 7).updated_state.current_question_index
    ∧ phaseRank s.interview_phase
        ≤ phaseRank ((nextQuestionAI req OracleOutcome.failure 7).updated_state.interview_phase) :=
  c2_advance_monotone
    ⟨"jd", "cv", "dev", ⟨1, QType.main, 0, 3, 1, Phase.in_progress, none, []⟩, none, none⟩
    OracleOutcome.failure 7 (Or.inr rfl)

/-- C3: whenever the oracle's decision carries no usable question —
the `question` field is absent, not a string, or trims to the empty
string — the advance operation marks the interview completed: the
returned state is the input state with `interview_phase = completed`,
the response flags `interview_complete = true`, and every other state
field (index, counters, limits, type, id, history) is unchanged. -/
theorem c3_blank_question_completes (req : NextQuestionRequest)
    (questionField : Option String) (reasoningField : Option String) (now : Nat)
    (hq : questionField = none
      ∨ ∃ q, questionField = some q ∧ jsTrim q = "") :
    (nextQuestionAI req (OracleOutcome.success questionField reasoningField) now).updated_state
        = { req.interview_state with interview_phase := Phase.completed }
    ∧ (nextQuestionAI req (OracleOutcome.success questionField reasoningField) now).interview_complete = true
    ∧ (nextQuestionAI req (OracleOutcome.success questionField reasoningField) now).question = none
    ∧ (nextQuestionAI req (OracleOutcome.success questionField reasoningField) now).updated_state.current_question_index
        = req.interview_state.current_question_index
    ∧ (nextQuestionAI req (OracleOutcome.success questionField reasoningField) now).updated_state.followup_count
        = req.interview_state.followup_count
    ∧ (nextQuestionAI req (OracleOutcome.success questionField reasoningField) now).updated_state.question_type
        = req.interview_state.question_type
    ∧ (nextQuestionAI req (OracleOutcome.success questionField reasoningField) now).updated_state.current_question_id
        = req.interview_state.current_question_id
    ∧ (nextQuestionAI req (OracleOutcome.success questionField reasoningField) now).updated_state.conversation_history
        = req.interview_state.conversation_history := by
  rcases hq with h | ⟨q, hq1, hq2⟩
  · subst h
    simp [nextQuestionAI, applyStateTransition, jsFalsyStr]
  · subst hq1
    simp [nextQuestionAI, applyStateTransition, jsFalsyStr, hq2]

/-- Witness for `c3_blank_question_completes` with a whitespace-only
question text. -/
theorem c3_blank_question_completes_witness :
    let s : InterviewState :=
      ⟨0, QType.main, 1, 5, 2, Phase.in_progress, some "main-1-3", []⟩
    let req : NextQuestionRequest := ⟨"jd", "cv", "dev", s, some "ans", none⟩
    (nextQuestionAI req (OracleOutcome.success (some "   ") none) 7).updated_state
        = { s with interview_phase := Phase.completed }
    ∧ (nextQuestionAI req (OracleOutcome.success (some "   ") none) 7).interview_complete = true :=
  ⟨(c3_blank_question_completes
      ⟨"jd", "cv", "dev", ⟨0, QType.main, 1, 5, 2, Phase.in_progress, some "main-1-3", []⟩,
        some "ans", none⟩ (some "   ") none 7
      (Or.inr ⟨"   ", rfl, by decide⟩)).1,
    (c3_blank_question_completes
      ⟨"jd", "cv", "dev", ⟨0, QType.main, 1, 5, 2, Phase.in_progress, some "main-1-3", []⟩,
        some "ans", none⟩ (some "   ") none 7
      (Or.inr ⟨"   ", rfl, by decide⟩)).2.1⟩

/-- C10: on the oracle-failure fallback path of `nextQuestionAI`, the
returned `updated_state` preserves `current_question_index`,
`followup_count`, `question_type`, `current_question_id`,
`conversation_history` (and both limits) exactly — in particular the
templated fallback main question is issued without incrementing the
index — and only `interview_phase` may change, set to `completed` iff
`current_question_index ≥ max_questions` and to `in_progress`
otherwise. -/
theorem c10_fallback_frame (req : NextQuestionRequest) (now : Nat) :
    (nextQuestionAI req OracleOutcome.failure now).updated_state.current_question_index
        = req.interview_state.current_question_index
    ∧ (nextQuestionAI req OracleOutcome.failure now).updated_state.followup_count
        = req.interview_state.followup_count
    ∧ (nextQuestionAI req OracleOutcome.failure now).updated_state.question_type
        = req.interview_state.question_type
    ∧ (nextQuestionAI req OracleOutcome.failure now).updated_state.current_question_id
        = req.interview_state.current_question_id
    ∧ (nextQuestionAI req OracleOutcome.failure now).updated_state.conversation_history
        = req.interview_state.conversation_history
    ∧ (nextQuestionAI req OracleOutcome.failure now).updated_state.max_questions
        = req.interview_state.max_questions
    ∧ (nextQuestionAI req OracleOutcome.failure now).updated_state.max_followups
        = req.interview_state.max_followups
    ∧ (nextQuestionAI req OracleOutcome.failure now).updated_state.interview_phase
        = (if req.interview_state.max_questions
              ≤ req.interview_state.current_question_index
           then Phase.completed else Phase.in_progress)
    ∧ (nextQuestionAI req OracleOutcome.failure now).question
        = (if req.interview_state.max_questions
              ≤ req.interview_state.current_question_index
           then none
           else some ("Tell me about your experience relevant to this "
             ++ req.roleTitle ++ " role.")) := by
  by_cases h : req.interview_state.max_questions
      ≤ req.interview_state.current_question_index <;>
    simp [nextQuestionAI, fallbackNextQuestion, h]

/-- Counterexample to C4 as stated: with a follow-up being solicited
(answer present, `question_type = main`, budget open) and the oracle
failing, the adapter does NOT substitute `{question: absent,
wantsFollowUp: false}` — it issues a templated main question of its
own. -/
theorem c4_counterexample :
    let s : InterviewState :=
      ⟨0, QType.main, 0, 3, 1, Phase.in_progress, none, []⟩
    let req : NextQuestionRequest := ⟨"jd", "cv", "Engineer", s, some "ans", none⟩
    shouldAskFollowUp s req.last_answer = true
    ∧ (nextQuestionAI req OracleOutcome.failure 7).question
        = some "Tell me about your experience relevant to this Engineer role."
    ∧ (nextQuestionAI req OracleOutcome.failure 7).question ≠ none := by
  refine ⟨by decide, by decide, by decide⟩

/-- C4 as amended: when the oracle call fails while a follow-up was
being solicited (or in any other context), the adapter substitutes the
deterministic fallback decision instead of propagating an error: the
follow-up is skipped (`question_type = main`, `followup_count`
untouched) and a templated role-referencing main question is issued,
unless `current_question_index ≥ max_questions`, in which case the
question is absent.  The model consumes exactly one oracle outcome per
decision, so at most one external call is made. -/
theorem c4_failure_fallback_decision (req : NextQuestionRequest) (now : Nat) :
    nextQuestionAI req OracleOutcome.failure now
        = fallbackNextQuestion req.interview_state req.roleTitle now
    ∧ (nextQuestionAI req OracleOutcome.failure now).question_type = QType.main
    ∧ (nextQuestionAI req OracleOutcome.failure now).updated_state.followup_count
        = req.interview_state.followup_count
    ∧ (nextQuestionAI req OracleOutcome.failure now).question
        = (if req.interview_state.max_questions
              ≤ req.interview_state.current_question_index
           then none
           else some ("Tell me about your experience relevant to this "
             ++ req.roleTitle ++ " role.")) := by
  refine ⟨rfl, rfl, rfl, ?_⟩
  simp only [nextQuestionAI, fallbackNextQuestion]
  by_cases h : req.interview_state.max_questions
      ≤ req.interview_state.current_question_index <;> simp [h]

/-- Counterexample to C6 as stated: when the server state is
`completed` and the local one is not, `updateStateFromResponse`
returns the server's `conversation_history`, not the local copy's. -/
theorem c6_counterexample :
    let entry : InterviewAnswer := ⟨"Q1", "A1", "t0", none, some QType.main, none⟩
    let localState : InterviewState :=
      ⟨1, QType.main, 0, 3, 1, Phase.in_progress, none, [entry]⟩
    let server : InterviewState :=
      ⟨1, QType.main, 0, 3, 1, Phase.completed, none, []⟩
    (updateStateFromResponse localState server).conversation_history
      ≠ localState.conversation_history := by
  decide

/-- C6 as amended: `syncStateFromServer` always returns the server
state on every field except `conversation_history`, which is the local
copy's; `updateStateFromResponse` does the same except when the server
phase is `completed` and the local phase is not, in which case the
whole server state — its `conversation_history` included — is
returned. -/
theorem c6_merge_rule (localState server : InterviewState) :
    (syncStateFromServer localState server).current_question_index
        = server.current_question_index
    ∧ (syncStateFromServer localState server).question_type = server.question_type
    ∧ (syncStateFromServer localState server).followup_count = server.followup_count
    ∧ (syncStateFromServer localState server).max_questions = server.max_questions
    ∧ (syncStateFromServer localState server).max_followups = server.max_followups
    ∧ (syncStateFromServer localState server).interview_phase = server.interview_phase
    ∧ (syncStateFromServer localState server).current_question_id
        = server.current_question_id
    ∧ (syncStateFromServer localState server).conversation_history
        = localState.conversation_history
    ∧ (¬(server.interview_phase = Phase.completed
          ∧ localState.interview_phase ≠ Phase.completed)
        → updateStateFromResponse localState server
            = { server with conversation_history := localState.conversation_history })
    ∧ ((server.interview_phase = Phase.completed
          ∧ localState.interview_phase ≠ Phase.completed)
        → updateStateFromResponse localState server = server) := by
  refine ⟨rfl, rfl, rfl, rfl, rfl, rfl, rfl, rfl, ?_, ?_⟩
  · intro h
    simp [updateStateFromResponse, h]
  · intro h
    simp only [updateStateFromResponse, if_pos h]
    rw [← h.1]

/-- Witness for `c6_merge_rule` at concrete diverging states. -/
theorem c6_merge_rule_witness :
    let entry : InterviewAnswer := ⟨"Q1", "A1", "t0", none, some QType.main, none⟩
    let localState : InterviewState :=
      ⟨1, QType.main, 0, 3, 1, Phase.in_progress, none, [entry]⟩
    let server : InterviewState :=
      ⟨2, QType.main, 0, 3, 1, Phase.in_progress, some "main-2-9", []⟩
    updateStateFromResponse localState server
      = { server with conversation_history := localState.conversation_history } :=
  ((c6_merge_rule
      ⟨1, QType.main, 0, 3, 1, Phase.in_progress, none,
        [⟨"Q1", "A1", "t0", none, some QType.main, none⟩]⟩
      ⟨2, QType.main, 0, 3, 1, Phase.in_progress, some "main-2-9", []⟩).2.2.2.2.2.2.2.2.1
    (by decide))

/-- C8: for every validated request whose session is already
`completed`, the route is a terminal no-op: it returns the echo
response (question `null`, `interview_complete = true`) with the input
state unchanged, for EVERY oracle outcome and timestamp — the result
does not depend on the oracle, so the oracle is never consulted — and
since the echoed state is the input state, repeating the call yields
the same result (idempotent echo). -/
theorem c8_completed_terminal_echo (body : RouteBody) (s : InterviewState)
    (hs : body.interview_state = some s)
    (hjd : body.jobDescription ≠ "") (hcv : body.resume ≠ "")
    (hrt : body.roleTitle ≠ "")
    (hph : s.interview_phase = Phase.completed) :
    (∀ (oracle : OracleOutcome) (now : Nat),
        nextQuestionRoute body oracle now = RouteResult.ok (completedEcho s))
    ∧ (completedEcho s).updated_state = s
    ∧ (completedEcho s).question = none
    ∧ (completedEcho s).interview_complete = true := by
  refine ⟨?_, rfl, rfl, rfl⟩
  intro oracle now
  simp only [nextQuestionRoute, hs, hjd, hcv, hrt, hph]
  simp

/-- Witness for `c8_completed_terminal_echo` at a concrete completed
session. -/
theorem c8_completed_terminal_echo_witness :
    let s : InterviewState :=
      ⟨3, QType.main, 0, 3, 1, Phase.completed, some "main-3-9", []⟩
    nextQuestionRoute ⟨"jd", "cv", "dev", some s, none, none⟩
        OracleOutcome.failure 7 = RouteResult.ok (completedEcho s) :=
  ((c8_completed_terminal_echo
      ⟨"jd", "cv", "dev",
        some ⟨3, QType.main, 0, 3, 1, Phase.completed, some "main-3-9", []⟩,
        none, none⟩
      ⟨3, QType.main, 0, 3, 1, Phase.completed, some "main-3-9", []⟩
      rfl (by decide) (by decide) (by decide) rfl).1 OracleOutcome.failure 7)

/-- Counterexample to C5 as stated: the claim quantifies over "the
evaluation operations", but the legacy `evaluateCandidateAI` only
type-checks the parsed object — a numeric `alignment_percentage` of
500 passes `isValidEvaluation` and is returned unclamped, outside
`[0,100]`, and a `final_verdict` outside the three-value enum is
passed through unchecked. -/
theorem c5_counterexample :
    let p : ParsedEval :=
      ⟨JVal.atom (JAtom.num 500), JVal.atom (JAtom.num 3),
        JVal.atom (JAtom.num 3), JVal.atom (JAtom.num 3),
        JVal.arr [], JVal.arr [], JVal.atom (JAtom.str "Banana"),
        JVal.atom (JAtom.str "ok")⟩
    (evaluateCandidateAI (EvalOracle.success p)).alignment_percentage = 500
    ∧ ¬((evaluateCandidateAI (EvalOracle.success p)).alignment_percentage ≤ 100)
    ∧ (evaluateCandidateAI (EvalOracle.success p)).final_verdict
        = JVal.atom (JAtom.str "Banana") := by
  refine ⟨by decide, by decide, by decide⟩

/-- C5 as amended: for every oracle outcome — arbitrary parsed fields
or total failure — the result of `finalEvaluationAI` (the sanitizing
evaluation path) satisfies its documented ranges:
`alignment_percentage ∈ [0,100]`, the three scores `∈ [0,10]`, numeric
fields whose value does not coerce to a number (JS `NaN`) mapped to
the range's lower bound, and `final_verdict` one of
`Fit`/`Maybe`/`Reject`, defaulting to `Maybe`.  The legacy
`evaluateCandidateAI` only type-checks fields and returns them
unclamped with the verdict unchecked. -/
theorem c5_sanitized_ranges (conversation_history : List InterviewAnswer)
    (oracle : EvalOracle) (p : ParsedEval) :
    (0 ≤ (finalEvaluationAI conversation_history oracle).alignment_percentage
      ∧ (finalEvaluationAI conversation_history oracle).alignment_percentage ≤ 100)
    ∧ (0 ≤ (finalEvaluationAI conversation_history oracle).technical_score
      ∧ (finalEvaluationAI conversation_history oracle).technical_score ≤ 10)
    ∧ (0 ≤ (finalEvaluationAI conversation_history oracle).problem_solving_score
      ∧ (finalEvaluationAI conversation_history oracle).problem_solving_score ≤ 10)
    ∧ (0 ≤ (finalEvaluationAI conversation_history oracle).communication_score
      ∧ (finalEvaluationAI conversation_history oracle).communication_score ≤ 10)
    ∧ ((finalEvaluationAI conversation_history oracle).final_verdict
          = JVal.atom (JAtom.str "Fit")
      ∨ (finalEvaluationAI conversation_history oracle).final_verdict
          = JVal.atom (JAtom.str "Maybe")
      ∨ (finalEvaluationAI conversation_history oracle).final_verdict
          = JVal.atom (JAtom.str "Reject"))
    ∧ (toNumber p.alignment_percentage = none
        → (finalEvaluationAI conversation_history (EvalOracle.success p)).alignment_percentage = 0)
    ∧ (toNumber p.technical_score = none
        → (finalEvaluationAI conversation_history (EvalOracle.success p)).technical_score = 0)
    ∧ (toNumber p.problem_solving_score = none
        → (finalEvaluationAI conversation_history (EvalOracle.success p)).problem_solving_score = 0)
    ∧ (toNumber p.communication_score = none
        → (finalEvaluationAI conversation_history (EvalOracle.success p)).communication_score = 0) := by
  have hclamp : ∀ (v : JVal) (lo hi : Int), lo ≤ hi →
      lo ≤ clamp v lo hi ∧ clamp v lo hi ≤ hi := by
    intro v lo hi hle
    unfold clamp
    cases toNumber v with
    | none => exact ⟨le_refl lo, hle⟩
    | some n =>
      constructor
      · exact le_min_iff.2 ⟨hle, le_max_left lo n⟩
      · exact min_le_left hi _
  have hnan : ∀ (v : JVal) (lo hi : Int), toNumber v = none →
      clamp v lo hi = lo := by
    intro v lo hi hv
    unfold clamp
    rw [hv]
  have hverdict : ∀ q : ParsedEval,
      (sanitizeEvaluation q).final_verdict = JVal.atom (JAtom.str "Fit")
      ∨ (sanitizeEvaluation q).final_verdict = JVal.atom (JAtom.str "Maybe")
      ∨ (sanitizeEvaluation q).final_verdict = JVal.atom (JAtom.str "Reject") := by
    intro q
    by_cases hv : q.final_verdict = JVal.atom (JAtom.str "Fit")
        ∨ q.final_verdict = JVal.atom (JAtom.str "Maybe")
        ∨ q.final_verdict = JVal.atom (JAtom.str "Reject")
    · have he : (sanitizeEvaluation q).final_verdict = q.final_verdict := by
        simp only [sanitizeEvaluation]
        rw [if_pos hv]
      rw [he]
      exact hv
    · have he : (sanitizeEvaluation q).final_verdict
          = JVal.atom (JAtom.str "Maybe") := by
        simp only [sanitizeEvaluation]
        rw [if_neg hv]
      rw [he]
      exact Or.inr (Or.inl rfl)
  cases oracle with
  | failure =>
    refine ⟨?_, ?_, ?_, ?_, ?_, ?_, ?_, ?_, ?_⟩
    · simp [finalEvaluationAI, getFallbackEvaluation]
    · simp [finalEvaluationAI, getFallbackEvaluation]
    · simp [finalEvaluationAI, getFallbackEvaluation]
    · simp [finalEvaluationAI, getFallbackEvaluation]
    · simp [finalEvaluationAI, getFallbackEvaluation]
    · intro h
      exact hnan p.alignment_percentage 0 100 h
    · intro h
      exact hnan p.technical_score 0 10 h
    · intro h
      exact hnan p.problem_solving_score 0 10 h
    · intro h
      exact hnan p.communication_score 0 10 h
  | success q =>
    refine ⟨?_, ?_, ?_, ?_, ?_, ?_, ?_, ?_, ?_⟩
    · exact hclamp q.alignment_percentage 0 100 (by norm_num)
    · exact hclamp q.technical_score 0 10 (by norm_num)
    · exact hclamp q.problem_solving_score 0 10 (by norm_num)
    · exact hclamp q.communication_score 0 10 (by norm_num)
    · exact hverdict q
    · intro h
      exact hnan p.alignment_percentage 0 100 h
    · intro h
      exact hnan p.technical_score 0 10 h
    · intro h
      exact hnan p.problem_solving_score 0 10 h
    · intro h
      exact hnan p.communication_score 0 10 h

/-- Witness for `c5_sanitized_ranges` at a concrete malformed oracle
object (a non-numeric alignment mapped to the lower bound 0). -/
theorem c5_sanitized_ranges_witness :
    let p : ParsedEval :=
      ⟨JVal.undefined, JVal.atom (JAtom.num 25), JVal.atom (JAtom.str "zz"),
        JVal.atom (JAtom.num (-4)), JVal.undefined, JVal.atom JAtom.null,
        JVal.atom (JAtom.num 9), JVal.undefined⟩
    (finalEvaluationAI [] (EvalOracle.success p)).alignment_percentage = 0 :=
  ((c5_sanitized_ranges [] (EvalOracle.success
      ⟨JVal.undefined, JVal.atom (JAtom.num 25), JVal.atom (JAtom.str "zz"),
        JVal.atom (JAtom.num (-4)), JVal.undefined, JVal.atom JAtom.null,
        JVal.atom (JAtom.num 9), JVal.undefined⟩)
      ⟨JVal.undefined, JVal.atom (JAtom.num 25), JVal.atom (JAtom.str "zz"),
        JVal.atom (JAtom.num (-4)), JVal.undefined, JVal.atom JAtom.null,
        JVal.atom (JAtom.num 9), JVal.undefined⟩).2.2.2.2.2.1 (by decide))

/-- Counterexample to C9 as stated: (a) `sanitizeEvaluation` does NOT
filter non-text elements out of the lists — a numeric strengths
element is passed through; (b) for the legacy `evaluateCandidateAI`, a
missing `weaknesses` field does not yield the empty list but the fixed
fallback report with two fixed weakness strings. -/
theorem c9_counterexample :
    let p1 : ParsedEval :=
      ⟨JVal.atom (JAtom.num 50), JVal.atom (JAtom.num 5),
        JVal.atom (JAtom.num 5), JVal.atom (JAtom.num 5),
        JVal.arr [JAtom.num 1, JAtom.str "ok"], JVal.arr [],
        JVal.atom (JAtom.str "Maybe"), JVal.atom (JAtom.str "s")⟩
    let p2 : ParsedEval :=
      ⟨JVal.atom (JAtom.num 50), JVal.atom (JAtom.num 5),
        JVal.atom (JAtom.num 5), JVal.atom (JAtom.num 5),
        JVal.arr [JAtom.str "a"], JVal.undefined,
        JVal.atom (JAtom.str "Maybe"), JVal.atom (JAtom.str "s")⟩
    (sanitizeEvaluation p1).strengths = [JAtom.num 1, JAtom.str "ok"]
    ∧ (evaluateCandidateAI (EvalOracle.success p2)).weaknesses
        = [JAtom.str "Needs deeper examples", JAtom.str "Limited edge-case discussion"]
    ∧ (evaluateCandidateAI (EvalOracle.success p2)).weaknesses ≠ [] := by
  refine ⟨by decide, by decide, by decide⟩

/-- C9 as amended: for every evaluation oracle output whose
`weaknesses` (resp. `strengths`) field is missing or not an array,
`finalEvaluationAI` raises no exception (it is a total function) and
returns the empty list for that field; when the field IS an array its
elements are passed through unchanged, non-text elements included.
The legacy `evaluateCandidateAI` instead rejects an object with a
missing `weaknesses` field and returns the fixed fallback report. -/
theorem c9_weaknesses_default (conversation_history : List InterviewAnswer)
    (p : ParsedEval) :
    (isArrayJ p.weaknesses = false
      → (finalEvaluationAI conversation_history (EvalOracle.success p)).weaknesses = [])
    ∧ (isArrayJ p.strengths = false
      → (finalEvaluationAI conversation_history (EvalOracle.success p)).strengths = [])
    ∧ (∀ xs, p.weaknesses = JVal.arr xs
      → (finalEvaluationAI conversation_history (EvalOracle.success p)).weaknesses = xs)
    ∧ (∀ xs, p.strengths = JVal.arr xs
      → (finalEvaluationAI conversation_history (EvalOracle.success p)).strengths = xs)
    ∧ (p.weaknesses = JVal.undefined
      → evaluateCandidateAI (EvalOracle.success p) = getFallbackEvaluationLegacy) := by
  refine ⟨?_, ?_, ?_, ?_, ?_⟩
  · intro h
    show (sanitizeEvaluation p).weaknesses = []
    simp only [sanitizeEvaluation]
    cases hw : p.weaknesses <;> simp_all [isArrayJ]
  · intro h
    show (sanitizeEvaluation p).strengths = []
    simp only [sanitizeEvaluation]
    cases hw : p.strengths <;> simp_all [isArrayJ]
  · intro xs h
    show (sanitizeEvaluation p).weaknesses = xs
    simp only [sanitizeEvaluation, h]
  · intro xs h
    show (sanitizeEvaluation p).strengths = xs
    simp only [sanitizeEvaluation, h]
  · intro h
    simp only [evaluateCandidateAI, isValidEvaluation, h, isArrayJ]
    simp

/-- Witness for `c9_weaknesses_default`: a missing `weaknesses` field
yields the empty list. -/
theorem c9_weaknesses_default_witness :
    let p : ParsedEval :=
      ⟨JVal.atom (JAtom.num 50), JVal.atom (JAtom.num 5),
        JVal.atom (JAtom.num 5), JVal.atom (JAtom.num 5),
        JVal.arr [JAtom.str "a"], JVal.undefined,
        JVal.atom (JAtom.str "Maybe"), JVal.atom (JAtom.str "s")⟩
    (finalEvaluationAI [] (EvalOracle.success p)).weaknesses = [] :=
  ((c9_weaknesses_default []
      ⟨JVal.atom (JAtom.num 50), JVal.atom (JAtom.num 5),
        JVal.atom (JAtom.num 5), JVal.atom (JAtom.num 5),
        JVal.arr [JAtom.str "a"], JVal.undefined,
        JVal.atom (JAtom.str "Maybe"), JVal.atom (JAtom.str "s")⟩).1 (by decide))

/-- Every live question id minted by `nextQuestionAI` (a response that
actually carries a question) ends in `-` followed by the decimal
digits of the `Date.now()` timestamp (helper). -/
lemma nextQuestionAI_minted_id_shape (req : NextQuestionRequest)
    (oracle : OracleOutcome) (now : Nat)
    (h : (nextQuestionAI req oracle now).question ≠ none) :
    ∃ l : List Char,
      (nextQuestionAI req oracle now).question_id.data
        = l ++ '-' :: natDigits now := by
  cases oracle with
  | failure =>
    refine ⟨"fallback".data, ?_⟩
    have hid : (nextQuestionAI req OracleOutcome.failure now).question_id
        = mintFallbackId now := rfl
    rw [hid, mintFallbackId_data]
  | success qf rf =>
    cases qf with
    | none =>
      exact absurd rfl h
    | some q =>
      by_cases hq : jsTrim q = ""
      · exfalso
        apply h
        simp [nextQuestionAI, applyStateTransition, jsFalsyStr, hq]
      · by_cases hf : shouldAskFollowUp req.interview_state req.last_answer = true
        · refine ⟨"followup-".data
            ++ natDigits req.interview_state.current_question_index, ?_⟩
          have hid : (nextQuestionAI req (OracleOutcome.success (some q) rf) now).question_id
              = mintFollowupId req.interview_state.current_question_index now := by
            simp [nextQuestionAI, applyStateTransition, jsFalsyStr, hq, hf]
          rw [hid, mintFollowupId_data]
        · refine ⟨"main-".data
            ++ natDigits (req.interview_state.current_question_index + 1), ?_⟩
          simp only [Bool.not_eq_true] at hf
          have hid : (nextQuestionAI req (OracleOutcome.success (some q) rf) now).question_id
              = mintMainId (req.interview_state.current_question_index + 1) now := by
            simp [nextQuestionAI, applyStateTransition, jsFalsyStr, hq, hf]
          rw [hid, mintMainId_data]

/-- Counterexample to C7 as stated: two distinct advance calls of one
session run — an oracle failure, then another oracle failure from the
resulting state — performed at the same wall-clock instant mint the
SAME live question id (`fallback-12` twice), because ids embed only
`Date.now()`. -/
theorem c7_counterexample :
    let s0 : InterviewState :=
      ⟨0, QType.main, 0, 3, 1, Phase.in_progress, none, []⟩
    let r1 := nextQuestionAI ⟨"jd", "cv", "dev", s0, none, none⟩
      OracleOutcome.failure 12
    let r2 := nextQuestionAI ⟨"jd", "cv", "dev", r1.updated_state, some "ans", none⟩
      OracleOutcome.failure 12
    r1.question ≠ none ∧ r2.question ≠ none
    ∧ r1.question_id = "fallback-12"
    ∧ r2.question_id = r1.question_id := by
  refine ⟨by decide, by decide, by decide, by decide⟩

/-- C7 as amended: two live question ids minted by distinct advance
calls of a session run are distinct PROVIDED the two calls carry
distinct wall-clock timestamps; at the same instant they may collide
(see the counterexample), since every id embeds only branch, index and
`Date.now()` — matching the spec's design note that timestamp-based
minting cannot guarantee same-instant uniqueness. -/
theorem c7_distinct_instants_distinct_ids
    (req1 req2 : NextQuestionRequest) (o1 o2 : OracleOutcome)
    (n1 n2 : Nat) (hne : n1 ≠ n2)
    (h1 : (nextQuestionAI req1 o1 n1).question ≠ none)
    (h2 : (nextQuestionAI req2 o2 n2).question ≠ none) :
    (nextQuestionAI req1 o1 n1).question_id
      ≠ (nextQuestionAI req2 o2 n2).question_id := by
  obtain ⟨l1, hl1⟩ := nextQuestionAI_minted_id_shape req1 o1 n1 h1
  obtain ⟨l2, hl2⟩ := nextQuestionAI_minted_id_shape req2 o2 n2 h2
  exact tail_timestamp_inj hl1 hl2 hne

/-- Witness for `c7_distinct_instants_distinct_ids`: a fallback id and
a follow-up id minted at instants 3 and 4 differ. -/
theorem c7_distinct_instants_distinct_ids_witness :
    let s0 : InterviewState :=
      ⟨0, QType.main, 0, 3, 1, Phase.in_progress, none, []⟩
    let req1 : NextQuestionRequest := ⟨"jd", "cv", "dev", s0, none, none⟩
    let req2 : NextQuestionRequest := ⟨"jd", "cv", "dev", s0, some "ans", none⟩
    (nextQuestionAI req1 OracleOutcome.failure 3).question_id
      ≠ (nextQuestionAI req2 (OracleOutcome.success (some "More?") none) 4).question_id :=
  c7_distinct_instants_distinct_ids
    ⟨"jd", "cv", "dev", ⟨0, QType.main, 0, 3, 1, Phase.in_progress, none, []⟩, none, none⟩
    ⟨"jd", "cv", "dev", ⟨0, QType.main, 0, 3, 1, Phase.in_progress, none, []⟩, some "ans", none⟩
    OracleOutcome.failure (OracleOutcome.success (some "More?") none)
    3 4 (by decide) (by decide) (by decide)
